import Mathlib

/-!
Shallow embedding of `easyeda2kicad/easyeda/easyeda_api.py` (class `EasyedaApi`).

JSON values parsed from HTTP responses are modelled by the inductive `Json`
(numbers as rationals).  Each API method of the class takes the parsed JSON
payload of the HTTP response it would fetch as an explicit argument, and
returns its Python return value together with the list of log events it
emits.  The aggregation entry point `get_cad_data_of_component` additionally
returns the trace of endpoints it contacted, so that short-circuiting is
observable.  Python exceptions (`KeyError` from subscription on a missing
key) are modelled with `Except String`.
-/

namespace EasyedaApi

/-- A parsed JSON value.  Numbers are modelled as rationals; JSON objects as
association lists with the keys in insertion order (Python dicts preserve
insertion order and have unique keys). -/
inductive Json where
  | null : Json
  | bool : Bool → Json
  | num : ℚ → Json
  | str : String → Json
  | arr : List Json → Json
  | obj : List (String × Json) → Json
deriving Repr

/-- Python truthiness of a JSON value: `None`, `False`, `0`, `""`, `[]`, `{}`
are falsy, everything else is truthy. -/
def Json.truthy : Json → Bool
  | .null => false
  | .bool b => b
  | .num q => decide (q ≠ 0)
  | .str s => decide (s ≠ "")
  | .arr xs => !xs.isEmpty
  | .obj kvs => !kvs.isEmpty

/-- Models Python's `x is False`: true only for the boolean literal `False`. -/
def Json.isFalseLit : Json → Bool
  | .bool false => true
  | _ => false

/-- A JSON object payload: what `r.json()` yields for these API endpoints. -/
abbrev JsonObj := List (String × Json)

/-- `d.get(k, default)` on a Python dict. -/
def getD (kvs : List (String × Json)) (k : String) (default : Json) : Json :=
  match kvs.lookup k with
  | some v => v
  | none => default

/-- Python dict assignment `d[k] = v`: replaces the value in place when the
key exists (keeping its position), otherwise appends the new pair. -/
def insertKV {α : Type} (kvs : List (String × α)) (k : String) (v : α) :
    List (String × α) :=
  if (kvs.lookup k).isSome then
    kvs.map (fun p => if p.1 = k then (k, v) else p)
  else
    kvs ++ [(k, v)]

/-- View a JSON value as a list for Python `for` iteration over a
`result` collection (defined on lists; the claims only exercise lists). -/
def asArr : Json → List Json
  | .arr xs => xs
  | _ => []

/-- View a JSON value as a dict for `.get` access (defined on objects; the
claims only exercise objects). -/
def asObj : Json → List (String × Json)
  | .obj kvs => kvs
  | _ => []

/-- Log levels used by the module (`logging.debug` / `warning` / `error`). -/
inductive LogLevel where
  | debug : LogLevel
  | warning : LogLevel
  | error : LogLevel
deriving DecidableEq, Repr

/-- A log event: level and message. -/
abbrev LogEvent := LogLevel × String

/-- The remote endpoints the aggregation entry point may contact. -/
inductive Endpoint where
  | primary : Endpoint
  | price : Endpoint
  | stock : Endpoint
  | details : Endpoint
deriving DecidableEq, Repr

/-- `get_info_from_easyeda_api`: given the parsed JSON object of the primary
endpoint response, return the payload, or the empty dict on an empty or
failing payload.  The failure test subscripts `api_response["success"]`
directly, which raises `KeyError` when a `code` key is present without a
`success` key; that exception is modelled with `Except.error "KeyError"`. -/
def get_info_from_easyeda_api (resp : JsonObj) :
    Except String JsonObj × List LogEvent :=
  if resp.isEmpty then
    (.ok [], [(LogLevel.debug, "api_response")])
  else if (resp.lookup "code").isSome then
    match resp.lookup "success" with
    | none => (.error "KeyError", [])
    | some v =>
      if v.isFalseLit then (.ok [], [(LogLevel.debug, "api_response")])
      else (.ok resp, [])
  else (.ok resp, [])

/-- `result.get("lcsc", {}).get("price")` for one entry of the price
endpoint result list. -/
def priceOf (entry : Json) : Json :=
  getD (asObj (getD (asObj entry) "lcsc" (.obj []))) "price" .null

/-- The loop of `get_lcsc_price`: return the first truthy price found while
scanning the result list in order. -/
def firstPrice : List Json → Option Json
  | [] => none
  | e :: rest => if (priceOf e).truthy then some (priceOf e) else firstPrice rest

/-- `get_lcsc_price`: given the parsed JSON object of the price endpoint
response, return the first truthy price of the result list, or null
(Python `None`) on failure or when no entry has a truthy price. -/
def get_lcsc_price (lcsc_id : String) (resp : JsonObj) : Json × List LogEvent :=
  if resp.isEmpty || (getD resp "success" (.bool false)).isFalseLit then
    (.null, [(LogLevel.debug, "api_response")])
  else
    match firstPrice (asArr (getD resp "result" (.arr []))) with
    | some p => (p, [])
    | none =>
      (.null, [(LogLevel.warning,
        "No price available for " ++ lcsc_id ++ " on LCSC")])

/-- `get_jlcpcb_stock`: given the parsed JSON object of the stock endpoint
response, return `result.get("stock_num", None)`, or null on failure. -/
def get_jlcpcb_stock (lcsc_id : String) (resp : JsonObj) : Json × List LogEvent :=
  if resp.isEmpty || (getD resp "success" (.bool false)).isFalseLit then
    (.null, [(LogLevel.debug, "api_response")])
  else
    let stock := getD (asObj (getD resp "result" (.obj []))) "stock_num" .null
    match stock with
    | .null => (.null, [(LogLevel.debug, "No SMT service available for " ++ lcsc_id)])
    | s => (s, [])

/-- The first maximal run of decimal digits in a character list. -/
def firstDigitRun (s : List Char) : List Char :=
  (s.dropWhile (fun c => !c.isDigit)).takeWhile Char.isDigit

/-- Decimal value of a list of digit characters. -/
def digitsToNat (ds : List Char) : Nat :=
  ds.foldl (fun n c => 10 * n + (c.toNat - 48)) 0

/-- The id a parameter code is mapped to in `get_lcsc_details`: the regex
search for the first digit run in the code with the sentinel suffix "_0"
appended, converted to an integer.  The sentinel guarantees a match (id 0)
even when the code itself has no digits. -/
def extractId (code : String) : Nat :=
  digitsToNat (firstDigitRun (code ++ "_0").data)

/-- A JSON string value, or the empty string (used where the source
concatenates a `.get(..., "")` result, which is a string on the modelled
domain; a non-string value would raise TypeError in Python). -/
def asStr : Json → String
  | .str s => s
  | _ => ""

/-- A JSON value used as a dict key (a string on the modelled domain). -/
def Json.keyStr : Json → String
  | .str s => s
  | _ => ""

/-- One iteration of the `paramVOList` loop of `get_lcsc_details`: keep the
parameter only when its name, its value and its derived id are truthy. -/
def paramStep (acc : List (String × (Nat × Json))) (param : Json) :
    List (String × (Nat × Json)) :=
  let name := getD (asObj param) "paramNameEn" .null
  let value := getD (asObj param) "paramValueEn" .null
  let id := extractId (asStr (getD (asObj param) "paramCode" (.str "")))
  if name.truthy && value.truthy && id != 0 then
    insertKV acc name.keyStr (id, value)
  else acc

/-- The whole `paramVOList` loop: the properties dict built by
`get_lcsc_details`. -/
def buildProps (params : List Json) : List (String × (Nat × Json)) :=
  params.foldl paramStep []

/-- The `LcscDetails` dataclass.  Field values come straight from the JSON
payload, so they are modelled as `Json` (the dataclass defaults are all
`None`, i.e. null). -/
structure LcscDetails where
  lcsc_stock : Json := .null
  product_id : Json := .null
  parentCategory : Json := .null
  category : Json := .null
  datasheet : Json := .null
  product_description : Json := .null
  product_intro : Json := .null
  weight : Json := .null
  properties : List (String × (Nat × Json)) := []
deriving Repr

/-- Python `str(...)` on the modelled domain: integers print in decimal
(`productId` is an integer in practice); other shapes are approximated and
outside the claims. -/
def pyStr : Json → String
  | .num q => if q.den = 1 then toString q.num else toString q
  | .str s => s
  | .bool b => if b then "True" else "False"
  | .null => "None"
  | .arr _ => "list"
  | .obj _ => "dict"

/-- `productWeight / 1000` (a number on the modelled domain; a non-numeric
truthy value would raise TypeError in Python). -/
def div1000 : Json → Json
  | .num q => .num (q / 1000)
  | j => j

/-- The weight field of `get_lcsc_details`:
`result.get("weight", result.get("productWeight", None) and
(result.get("productWeight", None) / 1000))`. -/
def weightOf (result : List (String × Json)) : Json :=
  match result.lookup "weight" with
  | some w => w
  | none =>
    match result.lookup "productWeight" with
    | none => .null
    | some pw => if pw.truthy then div1000 pw else pw

/-- `result.get("code", 0) != 200` is failure; success needs the JSON
number 200 exactly. -/
def isNum200 : Json → Bool
  | .num q => decide (q = 200)
  | _ => false

/-- `get_lcsc_details`: given the parsed JSON object of the vendor-detail
endpoint response, build the `LcscDetails` record, or return null (Python
`None`) on failure or on a falsy result. -/
def get_lcsc_details (lcsc_id : String) (resp : JsonObj) :
    Option LcscDetails × List LogEvent :=
  if resp.isEmpty || !isNum200 (getD resp "code" (.num 0)) then
    (none, [(LogLevel.debug, "api_response")])
  else
    let result := getD resp "result" .null
    if !result.truthy then
      (none, [(LogLevel.debug, "No details available for " ++ lcsc_id)])
    else
      let r := asObj result
      -- `result.get("paramVOList", []) or []`
      let pvl := getD r "paramVOList" (.arr [])
      let params := if pvl.truthy then asArr pvl else []
      let pid := getD r "productId" .null
      (some {
        lcsc_stock := getD r "stockNumber" .null
        -- `result.get("productId") and str(result.get("productId"))`
        product_id := if pid.truthy then Json.str (pyStr pid) else pid
        parentCategory := getD r "parentCatalogName" .null
        category := getD r "catalogName" .null
        -- `result.get("pdfUrl", result.get("pdfLinkUrl") or None)`
        datasheet :=
          match r.lookup "pdfUrl" with
          | some v => v
          | none =>
            let p := getD r "pdfLinkUrl" .null
            if p.truthy then p else .null
        product_description := getD r "productDescEn" .null
        product_intro := getD r "productIntroEn" .null
        weight := weightOf r
        properties := buildProps params }, [])

/-- An HTTP response for the 3D-model asset endpoints: transport status code
and raw body bytes (`r.status_code` and `r.content`). -/
structure HttpResp where
  status : Nat
  content : List Nat

/-- `get_raw_3d_model_obj`: on status 200 return the body decoded as text
(the decoding function `bytes.decode` is library code, taken as a
parameter); otherwise log an error and return null. -/
def get_raw_3d_model_obj (decodeUtf8 : List Nat → String) (uuid : String)
    (resp : HttpResp) : Option String × List LogEvent :=
  if resp.status ≠ 200 then
    (none, [(LogLevel.error,
      "No raw 3D model data found for uuid:" ++ uuid ++ " on easyeda")])
  else (some (decodeUtf8 resp.content), [])

/-- `get_step_3d_model`: on status 200 return the body bytes unmodified;
otherwise log an error and return null. -/
def get_step_3d_model (uuid : String) (resp : HttpResp) :
    Option (List Nat) × List LogEvent :=
  if resp.status ≠ 200 then
    (none, [(LogLevel.error,
      "No step 3D model data found for uuid:" ++ uuid ++ " on easyeda")])
  else (some resp.content, [])

/-- A value stored in the aggregated result dict: either a JSON value coming
from the payloads, or the `LcscDetails` dataclass instance. -/
inductive AggVal where
  | j : Json → AggVal
  | det : LcscDetails → AggVal
deriving Repr

/-- The parsed JSON payloads the four remote endpoints would serve for one
part id: the aggregation entry point is a function of these. -/
structure ApiEnv where
  info : JsonObj
  price : JsonObj
  stock : JsonObj
  details : JsonObj

/-- `get_cad_data_of_component`: primary lookup first; on an empty primary
result return the empty dict immediately (the other endpoints are not
contacted, as the returned trace records).  Otherwise seed the result with
the primary payload's "result" object (subscription `cp_cad_info["result"]`
raises `KeyError` when absent) and attach each enrichment under its key
when its value is truthy.  A non-dict "result" value is outside the
modelled domain (Python would raise on the first truthy enrichment
assignment). -/
def get_cad_data_of_component (lcsc_id : String) (env : ApiEnv) :
    Except String (List (String × AggVal)) × List Endpoint × List LogEvent :=
  let infoR := get_info_from_easyeda_api env.info
  match infoR.1 with
  | .error e => (.error e, [Endpoint.primary], infoR.2)
  | .ok cp =>
    if cp.isEmpty then (.ok [], [Endpoint.primary], infoR.2)
    else
      match cp.lookup "result" with
      | none => (.error "KeyError", [Endpoint.primary], infoR.2)
      | some (Json.obj kvs0) =>
        let priceR := get_lcsc_price lcsc_id env.price
        let kv0 := kvs0.map (fun p => (p.1, AggVal.j p.2))
        let kv1 := if priceR.1.truthy then insertKV kv0 "lcsc_price" (AggVal.j priceR.1) else kv0
        let stockR := get_jlcpcb_stock lcsc_id env.stock
        let kv2 := if stockR.1.truthy then insertKV kv1 "jlc_stock" (AggVal.j stockR.1) else kv1
        let detR := get_lcsc_details lcsc_id env.details
        let kv3 :=
          match detR.1 with
          | some d => insertKV kv2 "lcsc_details" (AggVal.det d)
          | none => kv2
        (.ok kv3,
         [Endpoint.primary, Endpoint.price, Endpoint.stock, Endpoint.details],
         infoR.2 ++ priceR.2 ++ stockR.2 ++ detR.2)
      | some _ => (.error "TypeError", [Endpoint.primary], infoR.2)

/-- The domain restriction under which the properties loop is modelled: a
parameter's name is a string when present (Python would hash any value as a
dict key; the API serves strings). -/
def paramNameOk (p : Json) : Bool :=
  match getD (asObj p) "paramNameEn" .null with
  | .str _ => true
  | .null => true
  | _ => false

/-- The invariant of entries of the properties dict: non-empty name, truthy
value, nonzero id. -/
def propOk (e : String × (Nat × Json)) : Prop :=
  e.1 ≠ "" ∧ e.2.2.truthy = true ∧ e.2.1 ≠ 0

/-- The body `get_cad_data_of_component` gives the aggregated dict on the
success path: the primary "result" entries followed by the enrichment
entries that are attached. -/
def aggExpected (lcsc_id : String) (env : ApiEnv)
    (kvs0 : List (String × Json)) : List (String × AggVal) :=
  kvs0.map (fun p => (p.1, AggVal.j p.2))
  ++ (if (get_lcsc_price lcsc_id env.price).1.truthy then
        [("lcsc_price", AggVal.j (get_lcsc_price lcsc_id env.price).1)] else [])
  ++ (if (get_jlcpcb_stock lcsc_id env.stock).1.truthy then
        [("jlc_stock", AggVal.j (get_jlcpcb_stock lcsc_id env.stock).1)] else [])
  ++ (match (get_lcsc_details lcsc_id env.details).1 with
      | some d => [("lcsc_details", AggVal.det d)]
      | none => [])

/-! Helper lemmas. -/

theorem lookup_map_aggj (k : String) (kvs : List (String × Json)) :
    (kvs.map (fun p => (p.1, AggVal.j p.2))).lookup k = (kvs.lookup k).map AggVal.j := by
  induction kvs with
  | nil => rfl
  | cons p rest ih =>
    cases h : k == p.1 <;> simp [List.lookup, h, ih]

theorem insertKV_of_lookup_none {α : Type} (kvs : List (String × α)) (k : String)
    (v : α) (h : kvs.lookup k = none) : insertKV kvs k v = kvs ++ [(k, v)] := by
  simp [insertKV, h]

theorem lookup_append_left_none {α : Type} (l1 l2 : List (String × α)) (k : String)
    (h : l1.lookup k = none) : (l1 ++ l2).lookup k = l2.lookup k := by
  induction l1 with
  | nil => rfl
  | cons p rest ih =>
    cases hk : k == p.1
    · simp only [List.cons_append, List.lookup, hk] at h ⊢
      exact ih h
    · simp only [List.lookup, hk] at h
      exact Option.noConfusion h

theorem mem_insertKV {α : Type} {e : String × α} {kvs : List (String × α)}
    {k : String} {v : α} (h : e ∈ insertKV kvs k v) : e ∈ kvs ∨ e = (k, v) := by
  unfold insertKV at h
  split at h
  · rcases List.mem_map.mp h with ⟨a, ha, hfa⟩
    by_cases hk : a.1 = k
    · right
      simp [hk] at hfa
      exact hfa.symm
    · left
      simp [hk] at hfa
      exact hfa ▸ ha
  · rcases List.mem_append.mp h with h' | h'
    · exact Or.inl h'
    · exact Or.inr (List.mem_singleton.mp h')

theorem firstPrice_eq_find (xs : List Json) :
    firstPrice xs = (xs.map priceOf).find? Json.truthy := by
  induction xs with
  | nil => rfl
  | cons e rest ih =>
    by_cases h : (priceOf e).truthy <;> simp [firstPrice, List.find?, h, ih]

theorem firstPrice_none_of_all {xs : List Json}
    (h : ∀ e ∈ xs, (priceOf e).truthy = false) : firstPrice xs = none := by
  induction xs with
  | nil => rfl
  | cons e rest ih =>
    simp [firstPrice, h e (List.mem_cons_self e rest)]
    exact ih (fun e' he' => h e' (List.mem_cons_of_mem e he'))

theorem dropWhile_append_of_all {p : Char → Bool} {l1 l2 : List Char}
    (h : ∀ c ∈ l1, p c = true) :
    List.dropWhile p (l1 ++ l2) = List.dropWhile p l2 := by
  induction l1 with
  | nil => rfl
  | cons c rest ih =>
    simp [List.dropWhile, h c (List.mem_cons_self c rest)]
    exact ih (fun c' hc' => h c' (List.mem_cons_of_mem c hc'))

theorem extractId_of_no_digits {s : String}
    (h : ∀ c ∈ s.data, c.isDigit = false) : extractId s = 0 := by
  unfold extractId firstDigitRun
  rw [String.data_append]
  rw [dropWhile_append_of_all (by intro c hc; simp [h c hc])]
  rfl

theorem paramStep_propOk {acc : List (String × (Nat × Json))} {p : Json}
    (hacc : ∀ e ∈ acc, propOk e) (hok : paramNameOk p = true) :
    ∀ e ∈ paramStep acc p, propOk e := by
  intro e he
  simp only [paramStep] at he
  split at he
  · rcases mem_insertKV he with h | h
    · exact hacc _ h
    · rename_i hguard
      rw [Bool.and_assoc, Bool.and_eq_true, Bool.and_eq_true] at hguard
      obtain ⟨hname, hvalue, hid⟩ := hguard
      subst h
      refine ⟨?_, hvalue, by simpa using hid⟩
      unfold paramNameOk at hok
      revert hname hok
      cases getD (asObj p) "paramNameEn" Json.null <;>
        simp [Json.truthy, Json.keyStr]
  · exact hacc _ he

theorem foldl_paramStep_propOk (params : List Json)
    (hok : ∀ p ∈ params, paramNameOk p = true) :
    ∀ acc, (∀ e ∈ acc, propOk e) →
      ∀ e ∈ params.foldl paramStep acc, propOk e := by
  induction params with
  | nil => intro acc hacc e he; exact hacc e he
  | cons p rest ih =>
    intro acc hacc e he
    exact ih (fun q hq => hok q (List.mem_cons_of_mem p hq))
      (paramStep acc p)
      (paramStep_propOk hacc (hok p (List.mem_cons_self p rest))) e he

theorem buildProps_propOk {params : List Json}
    (hok : ∀ p ∈ params, paramNameOk p = true) :
    ∀ e ∈ buildProps params, propOk e :=
  foldl_paramStep_propOk params hok [] (by intro e he; cases he)

theorem agg_result_eq (lcsc_id : String) (env : ApiEnv) (cp : JsonObj)
    (kvs0 : List (String × Json))
    (hinfo : (get_info_from_easyeda_api env.info).1 = .ok cp)
    (hne : cp.isEmpty = false)
    (hres : cp.lookup "result" = some (.obj kvs0))
    (h1 : kvs0.lookup "lcsc_price" = none)
    (h2 : kvs0.lookup "jlc_stock" = none)
    (h3 : kvs0.lookup "lcsc_details" = none) :
    (get_cad_data_of_component lcsc_id env).1 =
      .ok (aggExpected lcsc_id env kvs0) := by
  have hm1 : (kvs0.map (fun p => (p.1, AggVal.j p.2))).lookup "lcsc_price" = none := by
    rw [lookup_map_aggj, h1]; rfl
  have hm2 : (kvs0.map (fun p => (p.1, AggVal.j p.2))).lookup "jlc_stock" = none := by
    rw [lookup_map_aggj, h2]; rfl
  have hm3 : (kvs0.map (fun p => (p.1, AggVal.j p.2))).lookup "lcsc_details" = none := by
    rw [lookup_map_aggj, h3]; rfl
  simp only [get_cad_data_of_component, hinfo, hne, hres, aggExpected,
    Bool.false_eq_true, if_false]
  by_cases hp : (get_lcsc_price lcsc_id env.price).1.truthy <;>
    by_cases hs : (get_jlcpcb_stock lcsc_id env.stock).1.truthy <;>
      cases hd : (get_lcsc_details lcsc_id env.details).1 <;>
        simp [hp, hs, hd, insertKV_of_lookup_none, hm1, hm2, hm3,
          lookup_append_left_none, List.lookup]

theorem isFalseLit_iff (v : Json) : v.isFalseLit = true ↔ v = .bool false := by
  cases v with
  | bool b => cases b <;> simp [Json.isFalseLit]
  | _ => simp [Json.isFalseLit]

theorem get_lcsc_price_eval {lcsc_id : String} {resp : JsonObj}
    {entries : List Json}
    (hne : resp.isEmpty = false)
    (hs : (getD resp "success" (Json.bool false)).isFalseLit = false)
    (hres : getD resp "result" (Json.arr []) = Json.arr entries) :
    get_lcsc_price lcsc_id resp =
      (match firstPrice entries with
       | some p => (p, [])
       | none => (Json.null, [(LogLevel.warning,
           "No price available for " ++ lcsc_id ++ " on LCSC")])) := by
  simp [get_lcsc_price, hne, hs, hres, asArr]

/-! Claim theorems. -/

/-- C1: when the primary lookup yields an empty result, the aggregation
operation returns the empty dict and short-circuits: its endpoint trace is
just the primary endpoint — the price, stock and vendor-detail payloads of
the environment are arbitrary and never consulted. -/
theorem get_cad_data_short_circuits_on_empty_primary
    (lcsc_id : String) (env : ApiEnv)
    (h : (get_info_from_easyeda_api env.info).1 = .ok []) :
    get_cad_data_of_component lcsc_id env =
      (.ok [], [Endpoint.primary], (get_info_from_easyeda_api env.info).2) := by
  simp [get_cad_data_of_component, h]

theorem get_cad_data_short_circuits_on_empty_primary_witness :
    (get_info_from_easyeda_api
        (⟨[], [("success", Json.bool true),
              ("result", Json.arr [Json.obj [("lcsc",
                Json.obj [("price", Json.num 1)])]])],
          [("success", Json.bool true),
           ("result", Json.obj [("stock_num", Json.num 7)])], []⟩ : ApiEnv).info).1 =
      .ok [] ∧
    get_cad_data_of_component "C100"
        ⟨[], [("success", Json.bool true),
              ("result", Json.arr [Json.obj [("lcsc",
                Json.obj [("price", Json.num 1)])]])],
          [("success", Json.bool true),
           ("result", Json.obj [("stock_num", Json.num 7)])], []⟩ =
      (.ok [], [Endpoint.primary],
        (get_info_from_easyeda_api ([] : JsonObj)).2) :=
  ⟨rfl, get_cad_data_short_circuits_on_empty_primary "C100" _ rfl⟩

/-- C3 counterexample: a payload that contains a `code` key but no
`success` key makes the primary lookup raise `KeyError` instead of
returning the parsed payload (or the empty dict). -/
theorem get_info_keyerror_on_code_without_success :
    get_info_from_easyeda_api [("code", Json.num 200)] = (.error "KeyError", []) ∧
    (get_info_from_easyeda_api [("code", Json.num 200)]).1 ≠
      .ok [("code", Json.num 200)] ∧
    (get_info_from_easyeda_api [("code", Json.num 200)]).1 ≠ .ok [] :=
  ⟨rfl, by simp [get_info_from_easyeda_api, List.lookup],
    by simp [get_info_from_easyeda_api, List.lookup]⟩

/-- C3 (amended): the primary lookup returns the empty dict exactly when
the payload is empty or contains a `code` key alongside an explicit
`success: false`, and in those cases it does not raise; when the payload
contains a `code` key but no `success` key it raises `KeyError`; in all
remaining cases it returns the parsed payload. -/
theorem get_info_eval_no_code {resp : JsonObj} (he : resp.isEmpty = false)
    (hc : resp.lookup "code" = none) :
    get_info_from_easyeda_api resp = (.ok resp, []) := by
  simp [get_info_from_easyeda_api, he, hc]

theorem get_info_eval_no_success {resp : JsonObj} {c : Json}
    (he : resp.isEmpty = false) (hc : resp.lookup "code" = some c)
    (hs : resp.lookup "success" = none) :
    get_info_from_easyeda_api resp = (.error "KeyError", []) := by
  simp [get_info_from_easyeda_api, he, hc, hs]

theorem get_info_eval_success {resp : JsonObj} {c v : Json}
    (he : resp.isEmpty = false) (hc : resp.lookup "code" = some c)
    (hs : resp.lookup "success" = some v) :
    get_info_from_easyeda_api resp =
      (if v.isFalseLit then (.ok [], [(LogLevel.debug, "api_response")])
       else (.ok resp, [])) := by
  by_cases hv : v.isFalseLit <;>
    simp [get_info_from_easyeda_api, he, hc, hs, hv]

theorem get_info_empty_iff_amended (resp : JsonObj) :
    ((get_info_from_easyeda_api resp).1 = .ok [] ↔
      (resp = [] ∨ ((resp.lookup "code").isSome ∧
        resp.lookup "success" = some (.bool false)))) ∧
    (resp ≠ [] → (resp.lookup "code").isSome →
      resp.lookup "success" = none →
      get_info_from_easyeda_api resp = (.error "KeyError", [])) ∧
    (resp ≠ [] →
      ((resp.lookup "code").isSome →
        ∃ v, resp.lookup "success" = some v ∧ v ≠ .bool false) →
      get_info_from_easyeda_api resp = (.ok resp, [])) := by
  by_cases he : resp = []
  · subst he
    simp [get_info_from_easyeda_api]
  · have he' : resp.isEmpty = false := by
      cases resp
      · exact absurd rfl he
      · rfl
    rcases hcode : resp.lookup "code" with _ | c
    · rw [get_info_eval_no_code he' hcode]
      refine ⟨?_, ?_, fun _ _ => rfl⟩
      · simp only [hcode, Option.isSome_none, Bool.false_eq_true, false_and,
          or_false]
        exact ⟨fun hok => absurd (Except.ok.inj hok) he, fun h => absurd h he⟩
      · intro _ hc' _
        simp at hc'
    · rcases hsucc : resp.lookup "success" with _ | v
      · rw [get_info_eval_no_success he' hcode hsucc]
        refine ⟨?_, fun _ _ _ => rfl, fun _ hex => ?_⟩
        · exact ⟨fun hok => Except.noConfusion hok,
            by rintro (h | ⟨_, hsf⟩)
               · exact absurd h he
               · exact Option.noConfusion hsf⟩
        · obtain ⟨w, hw, _⟩ := hex rfl
          exact Option.noConfusion hw
      · rw [get_info_eval_success he' hcode hsucc]
        by_cases hv : v.isFalseLit
        · have hvf : v = .bool false := (isFalseLit_iff v).mp hv
          subst hvf
          refine ⟨?_, fun _ _ hnone => Option.noConfusion hnone,
            fun _ hex => ?_⟩
          · simp [Json.isFalseLit]
          · obtain ⟨w, hw, hwne⟩ := hex rfl
            exact absurd (Option.some.inj hw).symm hwne
        · refine ⟨?_, fun _ _ hnone => Option.noConfusion hnone,
            fun _ _ => by simp [hv]⟩
          rw [if_neg hv]
          refine ⟨fun hok => absurd (Except.ok.inj hok) he, ?_⟩
          rintro (h | ⟨_, hsf⟩)
          · exact absurd h he
          · exact absurd ((isFalseLit_iff v).mpr (Option.some.inj hsf)) hv

theorem get_info_empty_iff_amended_witness :
    (([("result", Json.obj [])] : JsonObj) ≠ [] ∧
      get_info_from_easyeda_api [("result", Json.obj [])] =
        (.ok [("result", Json.obj [])], [])) ∧
    ((get_info_from_easyeda_api [("code", Json.num 200),
        ("success", Json.bool false)]).1 = .ok []) :=
  ⟨⟨by simp,
    (get_info_empty_iff_amended [("result", Json.obj [])]).2.2 (by simp)
      (fun hc => absurd hc (by simp [List.lookup]))⟩,
   (get_info_empty_iff_amended _).1.mpr
     (Or.inr ⟨by simp [List.lookup], by simp [List.lookup]⟩)⟩

/-- C2: on a successful primary lookup whose payload carries a "result"
object (which, as the enrichment keys are to be added, does not already use
them), the aggregated dict is exactly the primary "result" entries,
unchanged and in order, followed by one entry per enrichment whose value is
attached (the attachment test of the code being truthiness of the returned
value), under the keys lcsc_price, jlc_stock and lcsc_details; an
enrichment that is not attached contributes no key at all. -/
theorem get_cad_data_result_extends_primary
    (lcsc_id : String) (env : ApiEnv) (cp : JsonObj)
    (kvs0 : List (String × Json))
    (hinfo : (get_info_from_easyeda_api env.info).1 = .ok cp)
    (hne : cp.isEmpty = false)
    (hres : cp.lookup "result" = some (.obj kvs0))
    (h1 : kvs0.lookup "lcsc_price" = none)
    (h2 : kvs0.lookup "jlc_stock" = none)
    (h3 : kvs0.lookup "lcsc_details" = none) :
    (get_cad_data_of_component lcsc_id env).1 =
      .ok (aggExpected lcsc_id env kvs0) :=
  agg_result_eq lcsc_id env cp kvs0 hinfo hne hres h1 h2 h3

theorem get_cad_data_result_extends_primary_witness :
    (get_info_from_easyeda_api
        (⟨[("result", Json.obj [("name", Json.str "R1")])],
          [("success", Json.bool true),
           ("result", Json.arr [Json.obj [("lcsc",
             Json.obj [("price", Json.num (1/2))])]])],
          [], []⟩ : ApiEnv).info).1 =
      .ok [("result", Json.obj [("name", Json.str "R1")])] ∧
    ([("result", Json.obj [("name", Json.str "R1")])] : JsonObj).isEmpty = false ∧
    ([("result", Json.obj [("name", Json.str "R1")])] : JsonObj).lookup "result" =
      some (.obj [("name", Json.str "R1")]) ∧
    ([("name", Json.str "R1")] : List (String × Json)).lookup "lcsc_price" = none ∧
    ([("name", Json.str "R1")] : List (String × Json)).lookup "jlc_stock" = none ∧
    ([("name", Json.str "R1")] : List (String × Json)).lookup "lcsc_details" = none ∧
    (get_cad_data_of_component "C200"
        ⟨[("result", Json.obj [("name", Json.str "R1")])],
          [("success", Json.bool true),
           ("result", Json.arr [Json.obj [("lcsc",
             Json.obj [("price", Json.num (1/2))])]])],
          [], []⟩).1 =
      .ok (aggExpected "C200"
        ⟨[("result", Json.obj [("name", Json.str "R1")])],
          [("success", Json.bool true),
           ("result", Json.arr [Json.obj [("lcsc",
             Json.obj [("price", Json.num (1/2))])]])],
          [], []⟩ [("name", Json.str "R1")]) :=
  ⟨rfl, rfl, rfl, rfl, rfl, rfl,
   get_cad_data_result_extends_primary "C200" _ _ _ rfl rfl rfl rfl rfl rfl⟩

/-- C4: on a successful price response whose result is a list, the price
lookup returns the first entry value (in upstream order) that exposes a
truthy price under the nested lcsc.price path, skipping entries without
one; in particular the two-entry list whose first entry has no price and
whose second carries price 0.42 yields 0.42. -/
theorem get_lcsc_price_first_truthy
    (lcsc_id : String) (resp : JsonObj) (entries : List Json)
    (hne : resp.isEmpty = false)
    (hs : (getD resp "success" (Json.bool false)).isFalseLit = false)
    (hres : getD resp "result" (Json.arr []) = Json.arr entries) :
    ((get_lcsc_price lcsc_id resp).1 =
      ((entries.map priceOf).find? Json.truthy).getD Json.null) ∧
    (get_lcsc_price "C1"
        [("success", Json.bool true),
         ("result", Json.arr [Json.obj [("lcsc", Json.obj [])],
           Json.obj [("lcsc", Json.obj [("price", Json.num (21/50))])]])]).1 =
      Json.num (21/50) := by
  constructor
  · rw [get_lcsc_price_eval hne hs hres, firstPrice_eq_find]
    rcases hfind : (entries.map priceOf).find? Json.truthy with _ | p <;> rfl
  · simp [get_lcsc_price, getD, List.lookup, asArr, firstPrice, priceOf,
      asObj, Json.truthy, Json.isFalseLit]

theorem get_lcsc_price_first_truthy_witness :
    ([("success", Json.bool true),
      ("result", Json.arr [Json.obj [("lcsc", Json.obj [])],
        Json.obj [("lcsc", Json.obj [("price", Json.num (21/50))])]])] :
          JsonObj).isEmpty = false ∧
    (getD [("success", Json.bool true),
      ("result", Json.arr [Json.obj [("lcsc", Json.obj [])],
        Json.obj [("lcsc", Json.obj [("price", Json.num (21/50))])]])]
      "success" (Json.bool false)).isFalseLit = false ∧
    (get_lcsc_price "C1"
        [("success", Json.bool true),
         ("result", Json.arr [Json.obj [("lcsc", Json.obj [])],
           Json.obj [("lcsc", Json.obj [("price", Json.num (21/50))])]])]).1 =
      (([Json.obj [("lcsc", Json.obj [])],
         Json.obj [("lcsc", Json.obj [("price", Json.num (21/50))])]].map
           priceOf).find? Json.truthy).getD Json.null :=
  ⟨rfl, rfl,
   (get_lcsc_price_first_truthy "C1"
     [("success", Json.bool true),
      ("result", Json.arr [Json.obj [("lcsc", Json.obj [])],
        Json.obj [("lcsc", Json.obj [("price", Json.num (21/50))])]])]
     [Json.obj [("lcsc", Json.obj [])],
      Json.obj [("lcsc", Json.obj [("price", Json.num (21/50))])]]
     rfl rfl rfl).1⟩

/-- C5 counterexample: when the price endpoint signals failure (an explicit
success false), the code returns null after logging only a debug event — no
warning-level event is emitted, contrary to the claim. -/
theorem get_lcsc_price_failure_logs_debug_only :
    get_lcsc_price "C999" [("success", Json.bool false)] =
      (Json.null, [(LogLevel.debug, "api_response")]) ∧
    LogLevel.warning ∉
      (get_lcsc_price "C999" [("success", Json.bool false)]).2.map Prod.fst :=
  ⟨rfl, by decide⟩

/-- C5 (amended): on endpoint failure (success flag false, or absent, or an
empty payload) the price lookup returns null with only a debug log; when
the lookup succeeds but no entry of the result list exposes a truthy price
(in particular on an empty list) it returns null and logs the
warning-level "no price available" message. -/
theorem get_lcsc_price_absence_amended (lcsc_id : String) (resp : JsonObj) :
    ((resp.isEmpty || (getD resp "success" (Json.bool false)).isFalseLit) = true →
      get_lcsc_price lcsc_id resp =
        (Json.null, [(LogLevel.debug, "api_response")])) ∧
    (∀ entries : List Json,
      (resp.isEmpty || (getD resp "success" (Json.bool false)).isFalseLit) = false →
      getD resp "result" (Json.arr []) = Json.arr entries →
      (∀ e ∈ entries, (priceOf e).truthy = false) →
      get_lcsc_price lcsc_id resp =
        (Json.null, [(LogLevel.warning,
          "No price available for " ++ lcsc_id ++ " on LCSC")])) := by
  constructor
  · intro h
    simp [get_lcsc_price, h]
  · intro entries hok hres hall
    simp only [get_lcsc_price, hok, Bool.false_eq_true, if_false, hres, asArr]
    rw [firstPrice_none_of_all hall]

theorem get_lcsc_price_absence_amended_witness :
    (([] : JsonObj).isEmpty ||
      (getD [] "success" (Json.bool false)).isFalseLit) = true ∧
    get_lcsc_price "C7" [] = (Json.null, [(LogLevel.debug, "api_response")]) ∧
    (([("success", Json.bool true), ("result", Json.arr [])] : JsonObj).isEmpty ||
      (getD [("success", Json.bool true), ("result", Json.arr [])]
        "success" (Json.bool false)).isFalseLit) = false ∧
    get_lcsc_price "C7" [("success", Json.bool true), ("result", Json.arr [])] =
      (Json.null, [(LogLevel.warning, "No price available for C7 on LCSC")]) :=
  ⟨rfl, (get_lcsc_price_absence_amended "C7" []).1 rfl, rfl,
   (get_lcsc_price_absence_amended "C7" _).2 [] rfl rfl
     (by intro e he; cases he)⟩

/-- C6: the id of a parameter is the first digit run of its paramCode
string with the sentinel "_0" appended; an entry is kept in the properties
mapping only when its name and value are truthy and the id is nonzero. In
particular the Tolerance parameter with code "sd_5" yields the entry
("Tolerance", (5, "1%")), a code with no digits yields id 0, and such a
parameter is dropped. -/
theorem get_lcsc_details_properties_spec :
    (∀ params : List Json, (∀ p ∈ params, paramNameOk p = true) →
      ∀ n i v, (n, (i, v)) ∈ buildProps params →
        n ≠ "" ∧ Json.truthy v = true ∧ i ≠ 0) ∧
    buildProps [Json.obj [("paramNameEn", Json.str "Tolerance"),
      ("paramValueEn", Json.str "1%"), ("paramCode", Json.str "sd_5")]] =
      [("Tolerance", (5, Json.str "1%"))] ∧
    extractId "sd_5" = 5 ∧
    extractId "abc" = 0 ∧
    (∀ s : String, (∀ c ∈ s.data, c.isDigit = false) → extractId s = 0) ∧
    buildProps [Json.obj [("paramNameEn", Json.str "T"),
      ("paramValueEn", Json.str "1%"), ("paramCode", Json.str "abc")]] = [] :=
  ⟨fun _ hok n i v h => buildProps_propOk hok (n, (i, v)) h, rfl, rfl, rfl,
   fun _ h => extractId_of_no_digits h, rfl⟩

theorem get_lcsc_details_properties_spec_witness :
    (∀ p ∈ [Json.obj [("paramNameEn", Json.str "Tolerance"),
        ("paramValueEn", Json.str "1%"), ("paramCode", Json.str "sd_5")]],
      paramNameOk p = true) ∧
    ("Tolerance", (5, Json.str "1%")) ∈
      buildProps [Json.obj [("paramNameEn", Json.str "Tolerance"),
        ("paramValueEn", Json.str "1%"), ("paramCode", Json.str "sd_5")]] ∧
    ("Tolerance" ≠ "" ∧ Json.truthy (Json.str "1%") = true ∧ (5 : Nat) ≠ 0) ∧
    ((∀ c ∈ "abc".data, c.isDigit = false) ∧ extractId "abc" = 0) :=
  ⟨fun p hp => by rw [List.mem_singleton.mp hp]; rfl,
   List.mem_singleton.mpr rfl,
   get_lcsc_details_properties_spec.1
     [Json.obj [("paramNameEn", Json.str "Tolerance"),
       ("paramValueEn", Json.str "1%"), ("paramCode", Json.str "sd_5")]]
     (fun p hp => by rw [List.mem_singleton.mp hp]; rfl)
     "Tolerance" 5 (Json.str "1%") (List.mem_singleton.mpr rfl),
   by decide,
   get_lcsc_details_properties_spec.2.2.2.2.1 "abc" (by decide)⟩

/-- C7: in vendor-detail normalization the weight uses a fallback chain:
the upstream weight field when present; otherwise productWeight divided by
1000 when productWeight is present; null (absence) when both are missing.
In particular productWeight 1500 yields 1.5 and both absent yields null. -/
theorem get_lcsc_details_weight_fallback (lcsc_id : String) (resp : JsonObj)
    (r : List (String × Json)) (q : ℚ)
    (hfail : (resp.isEmpty || !isNum200 (getD resp "code" (Json.num 0))) = false)
    (hres : (getD resp "result" Json.null).truthy = true)
    (hobj : asObj (getD resp "result" Json.null) = r) :
    ((get_lcsc_details lcsc_id resp).1.map LcscDetails.weight =
      some (weightOf r)) ∧
    (∀ w, r.lookup "weight" = some w → weightOf r = w) ∧
    (r.lookup "weight" = none → r.lookup "productWeight" = some (Json.num q) →
      weightOf r = Json.num (q / 1000)) ∧
    (r.lookup "weight" = none → r.lookup "productWeight" = none →
      weightOf r = Json.null) ∧
    weightOf [("productWeight", Json.num 1500)] = Json.num (3/2) ∧
    weightOf [] = Json.null := by
  refine ⟨?_, ?_, ?_, ?_, ?_, rfl⟩
  · simp [get_lcsc_details, hfail, hres, hobj]
  · intro w hw
    simp [weightOf, hw]
  · intro hw hpw
    by_cases hq : q = 0
    · subst hq
      simp [weightOf, hw, hpw, Json.truthy]
    · simp [weightOf, hw, hpw, Json.truthy, hq, div1000]
  · intro hw hpw
    simp [weightOf, hw, hpw]
  · show Json.num (1500 / 1000) = Json.num (3/2)
    norm_num

theorem get_lcsc_details_weight_fallback_witness :
    (([("code", Json.num 200),
        ("result", Json.obj [("productWeight", Json.num 1500)])] :
          JsonObj).isEmpty ||
      !isNum200 (getD [("code", Json.num 200),
        ("result", Json.obj [("productWeight", Json.num 1500)])]
        "code" (Json.num 0))) = false ∧
    (getD [("code", Json.num 200),
      ("result", Json.obj [("productWeight", Json.num 1500)])]
      "result" Json.null).truthy = true ∧
    asObj (getD [("code", Json.num 200),
      ("result", Json.obj [("productWeight", Json.num 1500)])]
      "result" Json.null) = [("productWeight", Json.num 1500)] ∧
    ((get_lcsc_details "C5" [("code", Json.num 200),
        ("result", Json.obj [("productWeight", Json.num 1500)])]).1.map
      LcscDetails.weight = some (weightOf [("productWeight", Json.num 1500)])) ∧
    weightOf [("productWeight", Json.num 1500)] = Json.num (3/2) :=
  ⟨by simp [isNum200, getD, List.lookup], rfl, rfl,
   (get_lcsc_details_weight_fallback "C5"
     [("code", Json.num 200),
      ("result", Json.obj [("productWeight", Json.num 1500)])]
     [("productWeight", Json.num 1500)] 0
     (by simp [isNum200, getD, List.lookup]) rfl rfl).1,
   (get_lcsc_details_weight_fallback "C5"
     [("code", Json.num 200),
      ("result", Json.obj [("productWeight", Json.num 1500)])]
     [("productWeight", Json.num 1500)] 0
     (by simp [isNum200, getD, List.lookup]) rfl rfl).2.2.2.2.1⟩

/-- C8 counterexample: a vendor-detail response whose productId is the
number 0 yields a product_id that is still the number 0, not the string
"0": the stringification is guarded by truthiness, so a falsy numeric id is
not converted. -/
theorem product_id_zero_not_stringified :
    ((get_lcsc_details "C1" [("code", Json.num 200),
        ("result", Json.obj [("productId", Json.num 0)])]).1.map
      LcscDetails.product_id) = some (Json.num 0) ∧
    (Json.num 0) ≠ Json.str "0" :=
  ⟨rfl, by simp⟩

/-- C8 (amended): when the productId field is present and truthy, the
product_id field of the returned record is its string representation; when
it is present but falsy (such as the number 0), it is carried over
unconverted. -/
theorem product_id_stringified_when_truthy (lcsc_id : String) (resp : JsonObj)
    (pid : Json)
    (hfail : (resp.isEmpty || !isNum200 (getD resp "code" (Json.num 0))) = false)
    (hres : (getD resp "result" Json.null).truthy = true)
    (hpid : getD (asObj (getD resp "result" Json.null)) "productId" Json.null
      = pid) :
    ((get_lcsc_details lcsc_id resp).1.map LcscDetails.product_id) =
      some (if pid.truthy then Json.str (pyStr pid) else pid) := by
  simp [get_lcsc_details, hfail, hres, hpid]

theorem product_id_stringified_when_truthy_witness :
    (([("code", Json.num 200),
        ("result", Json.obj [("productId", Json.num 12345)])] :
          JsonObj).isEmpty ||
      !isNum200 (getD [("code", Json.num 200),
        ("result", Json.obj [("productId", Json.num 12345)])]
        "code" (Json.num 0))) = false ∧
    (getD [("code", Json.num 200),
      ("result", Json.obj [("productId", Json.num 12345)])]
      "result" Json.null).truthy = true ∧
    getD (asObj (getD [("code", Json.num 200),
      ("result", Json.obj [("productId", Json.num 12345)])]
      "result" Json.null)) "productId" Json.null = Json.num 12345 ∧
    ((get_lcsc_details "C1" [("code", Json.num 200),
        ("result", Json.obj [("productId", Json.num 12345)])]).1.map
      LcscDetails.product_id) =
      some (if (Json.num 12345).truthy then Json.str (pyStr (Json.num 12345))
            else Json.num 12345) :=
  ⟨by simp [isNum200, getD, List.lookup], rfl, rfl,
   product_id_stringified_when_truthy "C1"
     [("code", Json.num 200),
      ("result", Json.obj [("productId", Json.num 12345)])]
     (Json.num 12345)
     (by simp [isNum200, getD, List.lookup]) rfl rfl⟩

/-- C9: both asset lookups are total functions of the response: when the
transport status differs from 200 they return null (no exception is
modelled or possible) and log an error naming the uuid and the variant; on
status 200 the raw variant returns the body decoded as text and the step
variant returns the body bytes unmodified. -/
theorem asset_lookups_status_gate (decodeUtf8 : List Nat → String)
    (uuid : String) (resp : HttpResp) :
    (resp.status ≠ 200 →
      get_raw_3d_model_obj decodeUtf8 uuid resp =
        (none, [(LogLevel.error,
          "No raw 3D model data found for uuid:" ++ uuid ++ " on easyeda")]) ∧
      get_step_3d_model uuid resp =
        (none, [(LogLevel.error,
          "No step 3D model data found for uuid:" ++ uuid ++ " on easyeda")])) ∧
    (resp.status = 200 →
      get_raw_3d_model_obj decodeUtf8 uuid resp =
        (some (decodeUtf8 resp.content), []) ∧
      get_step_3d_model uuid resp = (some resp.content, [])) := by
  constructor
  · intro h
    constructor <;> simp [get_raw_3d_model_obj, get_step_3d_model, h]
  · intro h
    constructor <;> simp [get_raw_3d_model_obj, get_step_3d_model, h]

theorem asset_lookups_status_gate_witness :
    ((404 : Nat) ≠ 200 ∧
      get_raw_3d_model_obj (fun _ => "") "u1" ⟨404, [83]⟩ =
        (none, [(LogLevel.error,
          "No raw 3D model data found for uuid:" ++ "u1" ++ " on easyeda")]) ∧
      get_step_3d_model "u1" ⟨404, [83]⟩ =
        (none, [(LogLevel.error,
          "No step 3D model data found for uuid:" ++ "u1" ++ " on easyeda")])) ∧
    ((200 : Nat) = 200 ∧
      get_raw_3d_model_obj (fun _ => "S") "u1" ⟨200, [83]⟩ = (some "S", []) ∧
      get_step_3d_model "u1" ⟨200, [83]⟩ = (some [83], [])) :=
  ⟨⟨by decide, (asset_lookups_status_gate (fun _ => "") "u1" ⟨404, [83]⟩).1
      (by decide)⟩,
   ⟨rfl, (asset_lookups_status_gate (fun _ => "S") "u1" ⟨200, [83]⟩).2 rfl⟩⟩

/-- C10: zero-valued enrichments are silently dropped by the truthiness
attachment test: a stock response carrying stock_num 0 makes the stock
lookup return the number 0 (not null), yet the aggregated result carries no
jlc_stock key at all; and the price scan skips any entry whose price is 0,
so a zero price is never attached. -/
theorem lookup_skip_entry {α : Type} (c : Prop) [Decidable c] (k k' : String)
    (v : α) (l : List (String × α)) (h : (k == k') = false) :
    List.lookup k ((if c then [(k', v)] else []) ++ l) = List.lookup k l := by
  by_cases hc : c <;> simp [hc, List.lookup, h]

theorem zero_valued_enrichments_dropped (lcsc_id : String) (env : ApiEnv)
    (cp : JsonObj) (kvs0 : List (String × Json))
    (hinfo : (get_info_from_easyeda_api env.info).1 = .ok cp)
    (hne : cp.isEmpty = false)
    (hres : cp.lookup "result" = some (.obj kvs0))
    (h1 : kvs0.lookup "lcsc_price" = none)
    (h2 : kvs0.lookup "jlc_stock" = none)
    (h3 : kvs0.lookup "lcsc_details" = none)
    (hsf : (env.stock.isEmpty ||
      (getD env.stock "success" (Json.bool false)).isFalseLit) = false)
    (hsn : getD (asObj (getD env.stock "result" (Json.obj [])))
      "stock_num" Json.null = Json.num 0) :
    (get_jlcpcb_stock lcsc_id env.stock).1 = Json.num 0 ∧
    (∃ out, (get_cad_data_of_component lcsc_id env).1 = .ok out ∧
      out.lookup "jlc_stock" = none) ∧
    (∀ (e : Json) (rest : List Json), priceOf e = Json.num 0 →
      firstPrice (e :: rest) = firstPrice rest) := by
  have hstock : (get_jlcpcb_stock lcsc_id env.stock).1 = Json.num 0 := by
    simp [get_jlcpcb_stock, hsf, hsn]
  refine ⟨hstock, ?_, ?_⟩
  · refine ⟨aggExpected lcsc_id env kvs0,
      agg_result_eq lcsc_id env cp kvs0 hinfo hne hres h1 h2 h3, ?_⟩
    have hm2 : (kvs0.map (fun p => (p.1, AggVal.j p.2))).lookup "jlc_stock"
        = none := by
      rw [lookup_map_aggj, h2]; rfl
    have hst : (get_jlcpcb_stock lcsc_id env.stock).1.truthy = false := by
      rw [hstock]; simp [Json.truthy]
    unfold aggExpected
    rw [List.append_assoc, List.append_assoc,
        lookup_append_left_none _ _ _ hm2,
        lookup_skip_entry _ _ _ _ _ (by decide),
        hst]
    simp only [Bool.false_eq_true, if_false, List.nil_append]
    rcases hd : (get_lcsc_details lcsc_id env.details).1 with _ | d <;>
      simp [List.lookup]
  · intro e rest hpe
    simp [firstPrice, hpe, Json.truthy]

theorem zero_valued_enrichments_dropped_witness :
    ((get_info_from_easyeda_api
        (⟨[("result", Json.obj [("name", Json.str "R1")])], [],
          [("success", Json.bool true),
           ("result", Json.obj [("stock_num", Json.num 0)])], []⟩ :
            ApiEnv).info).1 =
      .ok [("result", Json.obj [("name", Json.str "R1")])]) ∧
    ((⟨[("result", Json.obj [("name", Json.str "R1")])], [],
        [("success", Json.bool true),
         ("result", Json.obj [("stock_num", Json.num 0)])], []⟩ :
          ApiEnv).stock.isEmpty ||
      (getD (⟨[("result", Json.obj [("name", Json.str "R1")])], [],
        [("success", Json.bool true),
         ("result", Json.obj [("stock_num", Json.num 0)])], []⟩ :
          ApiEnv).stock "success" (Json.bool false)).isFalseLit) = false ∧
    (get_jlcpcb_stock "C300"
      (⟨[("result", Json.obj [("name", Json.str "R1")])], [],
        [("success", Json.bool true),
         ("result", Json.obj [("stock_num", Json.num 0)])], []⟩ :
          ApiEnv).stock).1 = Json.num 0 ∧
    (∃ out, (get_cad_data_of_component "C300"
        ⟨[("result", Json.obj [("name", Json.str "R1")])], [],
          [("success", Json.bool true),
           ("result", Json.obj [("stock_num", Json.num 0)])], []⟩).1 =
      .ok out ∧ out.lookup "jlc_stock" = none) :=
  ⟨rfl, rfl,
   (zero_valued_enrichments_dropped "C300"
     ⟨[("result", Json.obj [("name", Json.str "R1")])], [],
       [("success", Json.bool true),
        ("result", Json.obj [("stock_num", Json.num 0)])], []⟩
     [("result", Json.obj [("name", Json.str "R1")])]
     [("name", Json.str "R1")]
     rfl rfl rfl rfl rfl rfl rfl rfl).1,
   (zero_valued_enrichments_dropped "C300"
     ⟨[("result", Json.obj [("name", Json.str "R1")])], [],
       [("success", Json.bool true),
        ("result", Json.obj [("stock_num", Json.num 0)])], []⟩
     [("result", Json.obj [("name", Json.str "R1")])]
     [("name", Json.str "R1")]
     rfl rfl rfl rfl rfl rfl rfl rfl).2.1⟩

end EasyedaApi
